import Mathlib

/-!
Shallow embedding of `jupyter_events` (files `jupyter_events/logger.py` and
its collaborators) and proofs about the emission pipeline of
`EventLogger`: the no-op guard, validation-error propagation, capsule
construction, redaction, sink dispatch and handler management.

The repository provides `jupyter_events/logger.py`.  The modules it imports
(`jupyter_events.__init__` with `EVENTS_METADATA_VERSION`,
`jupyter_events.schema_registry` with `SchemaRegistry` and `Schema`, the
`pythonjsonlogger`/`logging` stack) are absent from the sources; where a
definition embeds one of those it is modelled from the specification and says
so in its doc comment.
-/

namespace JupyterEvents

/-- JSON-like values carried by event payloads and capsules. -/
inductive JsonValue where
  | str (s : String)
  | int (n : Int)
  | bool (b : Bool)
  | null
deriving DecidableEq, Repr

/-- A JSON object, as Python `dict` contents: an association list from keys to
values (keys are unique in every record the program builds). -/
abbrev Record := List (String × JsonValue)

/-- The keys of a record, in order. -/
def keysOf (r : Record) : List String := r.map Prod.fst

/-- Python `del record[k]` followed by serialization: the record without the
key `k` (in the program the key is always present when deleted). -/
def delKey (r : Record) (k : String) : Record := r.filter (fun kv => kv.1 ≠ k)

/-- Python `dict.update`: values of keys present in `upd` are overwritten in
place, keys of `upd` absent from `base` are appended in order. -/
def dictUpdate (base upd : Record) : Record :=
  (base.map (fun kv =>
    match upd.lookup kv.1 with
    | some v => (kv.1, v)
    | none => kv)) ++
    upd.filter (fun kv => ¬ (keysOf base).contains kv.1)

/-- Two-digit zero-padded decimal rendering, as in Python `datetime.isoformat`. -/
def pad2 (n : Nat) : String := if n < 10 then "0" ++ toString n else toString n

/-- Four-digit zero-padded year rendering. -/
def pad4 (n : Nat) : String :=
  if n < 10 then "000" ++ toString n
  else if n < 100 then "00" ++ toString n
  else if n < 1000 then "0" ++ toString n
  else toString n

/-- Six-digit zero-padded microsecond rendering. -/
def pad6 (n : Nat) : String :=
  if n < 10 then "00000" ++ toString n
  else if n < 100 then "0000" ++ toString n
  else if n < 1000 then "000" ++ toString n
  else if n < 10000 then "00" ++ toString n
  else if n < 100000 then "0" ++ toString n
  else toString n

/-- Python `datetime` value: calendar fields plus an optional `tzinfo` UTC
offset in minutes (`none` models a naive datetime such as
`datetime.utcnow()` returns). -/
structure Datetime where
  year : Nat
  month : Nat
  day : Nat
  hour : Nat
  minute : Nat
  second : Nat
  microsecond : Nat
  utcoffsetMinutes : Option Int
deriving DecidableEq, Repr

/-- Rendering of a `tzinfo` UTC offset as `+HH:MM` / `-HH:MM`, as Python
`datetime.isoformat` appends for aware datetimes. -/
def offsetString (off : Int) : String :=
  (if 0 ≤ off then "+" else "-") ++
    pad2 (off.natAbs / 60) ++ ":" ++ pad2 (off.natAbs % 60)

/-- The datetime's fields rendered without any offset suffix
(`YYYY-MM-DDTHH:MM:SS[.ffffff]`). -/
def Datetime.isoformatNaive (dt : Datetime) : String :=
  pad4 dt.year ++ "-" ++ pad2 dt.month ++ "-" ++ pad2 dt.day ++ "T" ++
    pad2 dt.hour ++ ":" ++ pad2 dt.minute ++ ":" ++ pad2 dt.second ++
    (if dt.microsecond = 0 then "" else "." ++ pad6 dt.microsecond)

/-- Python `datetime.isoformat()`: the fields rendered verbatim, with the
`+HH:MM` offset suffix appended exactly when the datetime is timezone-aware.
No conversion of the fields to UTC takes place. -/
def Datetime.isoformat (dt : Datetime) : String :=
  dt.isoformatNaive ++
    (match dt.utcoffsetMinutes with
     | none => ""
     | some off => offsetString off)

/-- The naive UTC datetime denoting the same instant as an offset-carrying
datetime: subtract the offset from the clock time, carrying into the day
field (day arithmetic stays inside one month, which suffices for the
comparisons made below).  This is a specification-side notion used to state
what instant a rendered timestamp denotes; it embeds no program code. -/
def Datetime.asUtcNaive (dt : Datetime) : Datetime :=
  match dt.utcoffsetMinutes with
  | none => dt
  | some off =>
    let total : Int := (dt.day : Int) * 1440 + (dt.hour : Int) * 60 +
      (dt.minute : Int) - off
    { dt with
      day := (total / 1440).toNat
      hour := ((total % 1440) / 60).toNat
      minute := (total % 60).toNat
      utcoffsetMinutes := none }

/-- Modelled from the spec: `EVENTS_METADATA_VERSION`, the fixed integer
constant tagging the capsule envelope format.  The package `__init__.py`
defining it is absent from the sources; the spec's concrete capsule example
fixes its value at `1`. -/
def EVENTS_METADATA_VERSION : Int := 1

/-- A property's declared type: a primitive type tag or an enumeration of
allowed literal values. -/
inductive PropType where
  | string
  | integer
  | boolean
  | enum (lits : List JsonValue)
deriving DecidableEq, Repr

/-- Modelled from the spec: one property of a schema — its declared type and
its optional redaction-policy list (absent means the schema-level default
applies). -/
structure PropertySpec where
  type : PropType
  redactionPolicies : Option (List String)
deriving DecidableEq, Repr

/-- Modelled from the spec: one registered, immutable event schema. -/
structure Schema where
  id : String
  version : Nat
  redactionPolicies : List String
  properties : List (String × PropertySpec)
deriving DecidableEq, Repr

/-- Does a key carry the reserved double-underscore name, reserved for
capsule metadata? -/
def reservedKey (k : String) : Bool := k.data.take 2 == ['_', '_']

/-- Does a value conform to a declared property type? -/
def JsonValue.matchesType : JsonValue → PropType → Bool
  | .str _, .string => true
  | .int _, .integer => true
  | .bool _, .boolean => true
  | v, .enum lits => lits.contains v
  | _, _ => false

/-- The property specification a schema declares under a name, if any. -/
def Schema.propSpec (s : Schema) (name : String) : Option PropertySpec :=
  s.properties.lookup name

/-- Modelled from the spec: `Schema.validate(event)` — structural conformance
of an event against the compiled schema, failing fast with the first
violation: every declared property must be present, every present declared
property's value must match its type or enum set, and no reserved
double-underscore keys may appear.  The input is not mutated.  The module
defining `Schema` is absent from the sources. -/
def Schema.validate (s : Schema) (event : Record) : Except String Unit :=
  match s.properties.find? (fun p => (event.lookup p.1).isNone) with
  | some p => .error ("missing required property: " ++ p.1)
  | none =>
    match event.find? (fun kv =>
        match s.propSpec kv.1 with
        | some spec => !(kv.2.matchesType spec.type)
        | none => false) with
    | some kv => .error ("value does not match declared type: " ++ kv.1)
    | none =>
      match event.find? (fun kv => reservedKey kv.1) with
      | some kv => .error ("reserved property name: " ++ kv.1)
      | none => .ok ()

/-- The effective redaction-policy set of a property: its own list, or the
schema-level default when it declares none (or is undeclared). -/
def Schema.effectivePolicies (s : Schema) (name : String) : List String :=
  match s.propSpec name with
  | some spec => spec.redactionPolicies.getD s.redactionPolicies
  | none => s.redactionPolicies

/-- Modelled from the spec: `Schema.enforce_redaction_policies(event,
allowedPolicies)` — every property whose effective policy set intersects
`allowed`, or any property when `allowed` holds the wildcard `all`, is
retained unchanged; every other property is removed from the event.  The
module defining `Schema` is absent from the sources. -/
def Schema.enforce_redaction_policies (s : Schema) (allowed : List String)
    (event : Record) : Record :=
  event.filter (fun kv =>
    allowed.contains "all" ||
      (s.effectivePolicies kv.1).any (fun p => allowed.contains p))

/-- Modelled from the spec: `SchemaRegistry` — the mapping from
`(id, version)` pairs to stored schemas, created with the allowed-policy set
it passes on for redaction (`SchemaRegistry(allowed_policies=...)` in
`logger.py`).  The module defining it is absent from the sources. -/
structure SchemaRegistry where
  allowed_policies : List String
  schemas : List ((String × Nat) × Schema)
deriving DecidableEq, Repr

/-- Membership test `(schema_name, version) in self.schema_registry`. -/
def SchemaRegistry.contains (r : SchemaRegistry) (key : String × Nat) : Bool :=
  (r.schemas.lookup key).isSome

/-- Lookup `self.schema_registry.get((schema_name, version))`. -/
def SchemaRegistry.get (r : SchemaRegistry) (key : String × Nat) :
    Option Schema :=
  r.schemas.lookup key

/-- A logging handler (sink), identified — as Python `in`/`remove` on
handler lists do — by object identity. -/
abbrev Handler := Nat

/-- The formatter installed on a handler.  `add_handler` installs
`jsonlogger.JsonFormatter(json_serializer=_skip_message)`, the only
formatter this program creates. -/
inductive Formatter where
  | jsonSkipMessage
deriving DecidableEq, Repr

/-- Modelled from the spec: the JSON record the `logging`/`jsonlogger` stack
assembles for one emitted capsule — the capsule's structured fields plus the
placeholder free-text `message` field (always the null placeholder, since
events are emitted as structured dicts). -/
def sinkRecord (capsule : Record) : Record :=
  capsule ++ [("message", JsonValue.null)]

/-- Serializer `_skip_message` in `add_handler`: remove `message` from the log record,
then serialize; the JSON object a sink receives is the record without that
key. -/
def Formatter.format : Formatter → Record → Record
  | .jsonSkipMessage, r => delKey r "message"

/-- The JSON object delivered to one handler for one capsule: the assembled
record, passed through the handler's formatter when one is installed. -/
def deliver (fmt : Option Formatter) (capsule : Record) : Record :=
  match fmt with
  | some f => f.format (sinkRecord capsule)
  | none => sinkRecord capsule

/-- The state of the `logging` module as this program uses it: which handlers
are attached to each named logger (`EventLogger` instances use names derived
injectively from `id(self)`, so attachment is keyed here by that unique id),
which formatter each handler carries, and the records each handler has
received. -/
structure LogState where
  attached : Nat → List Handler
  formatterOf : Handler → Option Formatter
  out : Handler → List Record

/-- Python `logging.Logger.addHandler`: attach the handler unless already attached. -/
def addIfAbsent (h : Handler) (l : List Handler) : List Handler :=
  if h ∈ l then l else l ++ [h]

/-- The `EventLogger` configurable: its unique identity (from which its
private logger name is derived), its `handlers` trait, its
`allowed_policies` trait, and its owned `SchemaRegistry`. -/
structure EventLogger where
  uid : Nat
  handlers : List Handler
  allowed_policies : List String
  schema_registry : SchemaRegistry

/-- Default of the `allowed_policies` trait: `["all"]`. -/
def defaultAllowedPolicies : List String := ["all"]

/-- Method `EventLogger.add_handler`: install the JSON formatter with `_skip_message`
on the handler, attach it to this instance's private logger, and append it to
the `handlers` trait unless already present. -/
def EventLogger.add_handler (el : EventLogger) (ls : LogState)
    (handler : Handler) : EventLogger × LogState :=
  let ls1 : LogState :=
    { ls with
      formatterOf := fun h =>
        if h = handler then some Formatter.jsonSkipMessage else ls.formatterOf h
      attached := fun n =>
        if n = el.uid then addIfAbsent handler (ls.attached n)
        else ls.attached n }
  let el1 :=
    if handler ∈ el.handlers then el
    else { el with handlers := el.handlers ++ [handler] }
  (el1, ls1)

/-- Method `EventLogger.remove_handler`: detach the handler from this instance's
private logger and drop its first occurrence from the `handlers` trait when
present (Python `list.remove`; absent handlers leave both unchanged). -/
def EventLogger.remove_handler (el : EventLogger) (ls : LogState)
    (handler : Handler) : EventLogger × LogState :=
  let ls1 : LogState :=
    { ls with
      attached := fun n =>
        if n = el.uid then (ls.attached n).erase handler else ls.attached n }
  ({ el with handlers := el.handlers.erase handler }, ls1)

/-- Constructor `EventLogger.__init__` with a configured `handlers` trait and the default
traits otherwise: the `allowed_policies` trait defaults to `["all"]`, the
`schema_registry` trait defaults to
`SchemaRegistry(allowed_policies=self.allowed_policies)`, and `add_handler`
is called on each configured handler. -/
def EventLogger.construct (uid : Nat) (handlers : List Handler)
    (ls : LogState) : EventLogger × LogState :=
  let el0 : EventLogger :=
    { uid := uid
      handlers := handlers
      allowed_policies := defaultAllowedPolicies
      schema_registry :=
        { allowed_policies := defaultAllowedPolicies, schemas := [] } }
  handlers.foldl (fun s h => s.1.add_handler s.2 h) (el0, ls)

/-- The empty event capsule of `emit`, before the event fields are merged
in: timestamp rendered as `isoformat() + "Z"`, schema identity, and the
metadata-version constant. -/
def baseCapsule (schema_name : String) (version : Nat)
    (timestamp : Datetime) : Record :=
  [("__timestamp__", JsonValue.str (timestamp.isoformat ++ "Z")),
   ("__schema__", JsonValue.str schema_name),
   ("__schema_version__", JsonValue.int (version : Int)),
   ("__metadata_version__", JsonValue.int EVENTS_METADATA_VERSION)]

/-- Dispatch `self.log.info(capsule)`: the capsule is handed to every handler attached
to this instance's private logger, formatted by each handler's formatter. -/
def dispatch (el : EventLogger) (ls : LogState) (capsule : Record) :
    LogState :=
  { ls with
    out := fun h =>
      if h ∈ ls.attached el.uid then
        ls.out h ++ [deliver (ls.formatterOf h) capsule]
      else ls.out h }

/-- Method `EventLogger.emit`.  `now` stands for the instant `datetime.utcnow()`
returns when no override is supplied.  The first component is the returned
value (`none` for the silent no-op, an error for a propagated
`EventValidationError`); the second is the logging state after the call,
unchanged in every non-dispatching outcome. -/
def EventLogger.emit (el : EventLogger) (ls : LogState) (schema_name : String)
    (version : Nat) (event : Record) (timestamp_override : Option Datetime)
    (now : Datetime) : Except String (Option Record) × LogState :=
  if el.handlers.isEmpty || !(el.schema_registry.contains (schema_name, version)) then
    (.ok none, ls)
  else
    let timestamp := timestamp_override.getD now
    match el.schema_registry.get (schema_name, version) with
    | none => (.ok none, ls)
    | some schema =>
      match schema.validate event with
      | .error e => (.error e, ls)
      | .ok _ =>
        let redacted :=
          schema.enforce_redaction_policies el.schema_registry.allowed_policies
            event
        let capsule := dictUpdate (baseCapsule schema_name version timestamp)
          redacted
        (.ok (some capsule), dispatch el ls capsule)

/-- An empty logging world: nothing attached, no formatters, no output. -/
def emptyLogState : LogState :=
  { attached := fun _ => [], formatterOf := fun _ => none, out := fun _ => [] }

/-- The schema of the spec's concrete emission example. -/
def testSchema : Schema :=
  { id := "test/test"
    version := 1
    redactionPolicies := ["unrestricted"]
    properties :=
      [("something",
        { type := PropType.string, redactionPolicies := some ["unrestricted"] })] }

/-- An `EventLogger` with one attached handler, the default allowed-policy
set, and `testSchema` registered. -/
def testLogger : EventLogger :=
  { uid := 0
    handlers := [0]
    allowed_policies := defaultAllowedPolicies
    schema_registry :=
      { allowed_policies := defaultAllowedPolicies
        schemas := [(("test/test", 1), testSchema)] } }

/-- A fixed concrete instant (naive, as `datetime.utcnow()` yields). -/
def dt0 : Datetime :=
  { year := 2020, month := 1, day := 1, hour := 0, minute := 0, second := 0,
    microsecond := 0, utcoffsetMinutes := none }

/-- A timezone-aware instant at UTC offset +05:30 (ten o'clock India time). -/
def dtIST : Datetime := { dt0 with hour := 10, utcoffsetMinutes := some 330 }

/-- Membership `contains` holds whenever `get` finds a schema (both read the same
stored mapping). -/
theorem contains_of_get (r : SchemaRegistry) (key : String × Nat)
    (schema : Schema) (hget : r.get key = some schema) :
    r.contains key = true := by
  unfold SchemaRegistry.contains
  unfold SchemaRegistry.get at hget
  simp [hget]

/-- Shape of every successful emission: the guard passes, validation
succeeds, and the result is the merged capsule together with its dispatch
to the attached handlers. -/
theorem emit_success_shape (el : EventLogger) (ls : LogState) (name : String)
    (version : Nat) (event : Record) (tso : Option Datetime) (now : Datetime)
    (schema : Schema)
    (hh : el.handlers.isEmpty = false)
    (hget : el.schema_registry.get (name, version) = some schema)
    (hv : schema.validate event = Except.ok ()) :
    el.emit ls name version event tso now =
      (Except.ok (some (dictUpdate (baseCapsule name version (tso.getD now))
          (schema.enforce_redaction_policies
            el.schema_registry.allowed_policies event))),
       dispatch el ls (dictUpdate (baseCapsule name version (tso.getD now))
          (schema.enforce_redaction_policies
            el.schema_registry.allowed_policies event))) := by
  have hc := contains_of_get el.schema_registry (name, version) schema hget
  unfold EventLogger.emit
  simp [hh, hc, hget, hv]

/-- Shape of every emission aborted by a validation error: the error is the
result and the logging state is untouched. -/
theorem emit_error_shape (el : EventLogger) (ls : LogState) (name : String)
    (version : Nat) (event : Record) (tso : Option Datetime) (now : Datetime)
    (schema : Schema) (e : String)
    (hh : el.handlers.isEmpty = false)
    (hget : el.schema_registry.get (name, version) = some schema)
    (hv : schema.validate event = Except.error e) :
    el.emit ls name version event tso now = (Except.error e, ls) := by
  have hc := contains_of_get el.schema_registry (name, version) schema hget
  unfold EventLogger.emit
  simp [hh, hc, hget, hv]

/-- A validated event carries no reserved double-underscore key. -/
theorem validate_ok_no_reserved (s : Schema) (event : Record)
    (hv : s.validate event = Except.ok ()) :
    ∀ kv ∈ event, reservedKey kv.1 = false := by
  unfold Schema.validate at hv
  cases h1 : s.properties.find? (fun p => (event.lookup p.1).isNone) with
  | some p => rw [h1] at hv; simp at hv
  | none =>
    rw [h1] at hv
    cases h2 : event.find? (fun kv =>
        match s.propSpec kv.1 with
        | some spec => !(kv.2.matchesType spec.type)
        | none => false) with
    | some kv => rw [h2] at hv; simp at hv
    | none =>
      rw [h2] at hv
      cases h3 : event.find? (fun kv => reservedKey kv.1) with
      | some kv => rw [h3] at hv; simp at hv
      | none =>
        intro kv hkv
        have := List.find?_eq_none.mp h3 kv hkv
        simpa using this

/-- Looking up a reserved key in a reserved-free record finds nothing. -/
theorem lookup_none_of_reserved_free (event : Record) (k : String)
    (hres : reservedKey k = true)
    (hfree : ∀ kv ∈ event, reservedKey kv.1 = false) :
    event.lookup k = none := by
  induction event with
  | nil => rfl
  | cons kv t ih =>
    have hk := hfree kv (List.mem_cons_self _ _)
    have hne : (k == kv.1) = false := by
      rcases Bool.eq_false_or_eq_true (k == kv.1) with h | h
      · have hkeq : k = kv.1 := beq_iff_eq.mp h
        rw [← hkeq, hres] at hk
        simp at hk
      · exact h
    simp only [List.lookup, hne]
    exact ih (fun kv2 h2 => hfree kv2 (List.mem_cons_of_mem _ h2))

/-- Redaction only removes fields, so a reserved-free event stays
reserved-free. -/
theorem redacted_reserved_free (s : Schema) (allowed : List String)
    (event : Record)
    (hfree : ∀ kv ∈ event, reservedKey kv.1 = false) :
    ∀ kv ∈ s.enforce_redaction_policies allowed event,
      reservedKey kv.1 = false := by
  intro kv hkv
  unfold Schema.enforce_redaction_policies at hkv
  exact hfree kv (List.mem_of_mem_filter hkv)

/-- The `__timestamp__` field of the merged capsule comes from the base
capsule whenever the merged-in event fields avoid that reserved key. -/
theorem lookup_timestamp_dictUpdate (name : String) (version : Nat)
    (timestamp : Datetime) (upd : Record)
    (hupd : upd.lookup "__timestamp__" = none) :
    (dictUpdate (baseCapsule name version timestamp) upd).lookup
        "__timestamp__" =
      some (JsonValue.str (timestamp.isoformat ++ "Z")) := by
  unfold dictUpdate baseCapsule
  simp [List.lookup, hupd]

/-- An `EventLogger` with no handler attached but `testSchema` registered. -/
def sinklessLogger : EventLogger := { testLogger with handlers := [] }

/-- C1: `emit` on a logger with no attached sinks, or for an unregistered
`(schemaId, version)` pair, returns immediately with no observable effect:
no error, no capsule, and the logging state — hence every sink's output —
is exactly the state before the call, whatever the event contains. -/
theorem emit_silent_noop (el : EventLogger) (ls : LogState) (name : String)
    (version : Nat) (event : Record) (tso : Option Datetime) (now : Datetime)
    (h : el.handlers = [] ∨ el.schema_registry.contains (name, version) = false) :
    el.emit ls name version event tso now = (Except.ok none, ls) := by
  unfold EventLogger.emit
  rcases h with h | h
  · simp [h]
  · simp [h]

/-- Witness for C1: a logger with a registered schema but no sink, and a
logger with a sink but an unregistered pair, both no-op on an event that
would even fail validation. -/
theorem emit_silent_noop_offers :
    sinklessLogger.emit emptyLogState "test/test" 1
        [("something", JsonValue.int 1)] none dt0 = (Except.ok none, emptyLogState) ∧
    testLogger.emit emptyLogState "other/schema" 1
        [("something", JsonValue.int 1)] none dt0 = (Except.ok none, emptyLogState) := by
  constructor
  · exact emit_silent_noop sinklessLogger emptyLogState "test/test" 1
      [("something", JsonValue.int 1)] none dt0 (Or.inl rfl)
  · exact emit_silent_noop testLogger emptyLogState "other/schema" 1
      [("something", JsonValue.int 1)] none dt0 (Or.inr rfl)

/-- C2: when validation rejects the event, `emit` propagates the error
synchronously and aborts: the error is the call's result (no capsule is
returned) and the logging state is unchanged, so no sink receives any
record. -/
theorem emit_propagates_validation_error (el : EventLogger) (ls : LogState)
    (name : String) (version : Nat) (event : Record) (tso : Option Datetime)
    (now : Datetime) (schema : Schema) (e : String)
    (hh : el.handlers.isEmpty = false)
    (hget : el.schema_registry.get (name, version) = some schema)
    (hv : schema.validate event = Except.error e) :
    el.emit ls name version event tso now = (Except.error e, ls) := by
  exact emit_error_shape el ls name version event tso now schema e hh hget hv

/-- Witness for C2: a string-typed property carrying an integer makes
validation fail and `emit` return exactly that error, sinks untouched. -/
theorem emit_propagates_validation_error_witness :
    testLogger.emit emptyLogState "test/test" 1 [("something", JsonValue.int 1)]
        none dt0 =
      (Except.error "value does not match declared type: something",
       emptyLogState) :=
  emit_propagates_validation_error testLogger emptyLogState "test/test" 1
    [("something", JsonValue.int 1)] none dt0 testSchema
    "value does not match declared type: something" rfl rfl rfl

/-- C3: with the spec's example schema registered, a sink attached and the
default allowed-policy set, `emit("test/test", 1, (something: "blah"))`
returns the capsule whose fields are exactly `__schema__`,
`__schema_version__`, `__metadata_version__ = 1` and `something`, plus the
present `__timestamp__` field. -/
theorem emit_example_capsule (now : Datetime) (ls : LogState) :
    (testLogger.emit ls "test/test" 1 [("something", JsonValue.str "blah")]
        none now).1 =
      Except.ok (some
        [("__timestamp__", JsonValue.str (now.isoformat ++ "Z")),
         ("__schema__", JsonValue.str "test/test"),
         ("__schema_version__", JsonValue.int 1),
         ("__metadata_version__", JsonValue.int 1),
         ("something", JsonValue.str "blah")]) := rfl

/-- In every successful emission the capsule's `__timestamp__` field is the
chosen timestamp (override if supplied, else the current instant) rendered
as `isoformat() + "Z"`; the merged event fields cannot shadow it because
validation rejects reserved keys. -/
theorem emit_timestamp_field (el : EventLogger) (ls : LogState) (name : String)
    (version : Nat) (event : Record) (tso : Option Datetime) (now : Datetime)
    (schema : Schema)
    (hh : el.handlers.isEmpty = false)
    (hget : el.schema_registry.get (name, version) = some schema)
    (hv : schema.validate event = Except.ok ()) :
    ∃ r ls2,
      el.emit ls name version event tso now = (Except.ok (some r), ls2) ∧
      r.lookup "__timestamp__" =
        some (JsonValue.str ((tso.getD now).isoformat ++ "Z")) := by
  refine ⟨_, _, emit_success_shape el ls name version event tso now schema hh hget hv, ?_⟩
  apply lookup_timestamp_dictUpdate
  refine lookup_none_of_reserved_free _ _ ?_ ?_
  · rfl
  · exact redacted_reserved_free _ _ _ (validate_ok_no_reserved schema event hv)

/-- C4: a supplied `timestampOverride` makes `__timestamp__` exactly that
override rendered as ISO-8601 with a trailing literal `Z`; without an
override the field is the current UTC instant (`datetime.utcnow()`, the
`now` parameter) in the same format. -/
theorem emit_timestamp_override_or_utcnow :
    (∀ (el : EventLogger) (ls : LogState) (name : String) (version : Nat)
        (event : Record) (dt now : Datetime) (schema : Schema),
        el.handlers.isEmpty = false →
        el.schema_registry.get (name, version) = some schema →
        schema.validate event = Except.ok () →
        ∃ r ls2,
          el.emit ls name version event (some dt) now =
            (Except.ok (some r), ls2) ∧
          r.lookup "__timestamp__" =
            some (JsonValue.str (dt.isoformat ++ "Z"))) ∧
    (∀ (el : EventLogger) (ls : LogState) (name : String) (version : Nat)
        (event : Record) (now : Datetime) (schema : Schema),
        el.handlers.isEmpty = false →
        el.schema_registry.get (name, version) = some schema →
        schema.validate event = Except.ok () →
        ∃ r ls2,
          el.emit ls name version event none now =
            (Except.ok (some r), ls2) ∧
          r.lookup "__timestamp__" =
            some (JsonValue.str (now.isoformat ++ "Z"))) := by
  constructor
  · intro el ls name version event dt now schema hh hget hv
    exact emit_timestamp_field el ls name version event (some dt) now schema hh hget hv
  · intro el ls name version event now schema hh hget hv
    exact emit_timestamp_field el ls name version event none now schema hh hget hv

/-- Witness for C4: the example logger emitting with the aware override and
with no override at the fixed instant `dt0`. -/
theorem emit_timestamp_override_or_utcnow_witness :
    (∃ r ls2,
      testLogger.emit emptyLogState "test/test" 1
          [("something", JsonValue.str "blah")] (some dtIST) dt0 =
        (Except.ok (some r), ls2) ∧
      r.lookup "__timestamp__" =
        some (JsonValue.str (dtIST.isoformat ++ "Z"))) ∧
    (∃ r ls2,
      testLogger.emit emptyLogState "test/test" 1
          [("something", JsonValue.str "blah")] none dt0 =
        (Except.ok (some r), ls2) ∧
      r.lookup "__timestamp__" =
        some (JsonValue.str (dt0.isoformat ++ "Z"))) :=
  ⟨emit_timestamp_override_or_utcnow.1 testLogger emptyLogState "test/test" 1
      [("something", JsonValue.str "blah")] dtIST dt0 testSchema rfl rfl rfl,
   emit_timestamp_override_or_utcnow.2 testLogger emptyLogState "test/test" 1
      [("something", JsonValue.str "blah")] dt0 testSchema rfl rfl rfl⟩

/-- C9: for an override carrying a timezone offset, `emit` renders the
fields verbatim and appends a literal `Z` after the offset suffix — no
conversion to UTC — so the field reads `...±HH:MMZ`; at the concrete
offset-aware instant `dtIST` the rendered field differs from the rendering
of the UTC instant it denotes. -/
theorem emit_timestamp_appends_z_without_utc_conversion :
    (∀ (el : EventLogger) (ls : LogState) (name : String) (version : Nat)
        (event : Record) (dt now : Datetime) (schema : Schema) (off : Int),
        el.handlers.isEmpty = false →
        el.schema_registry.get (name, version) = some schema →
        schema.validate event = Except.ok () →
        dt.utcoffsetMinutes = some off →
        ∃ r ls2,
          el.emit ls name version event (some dt) now =
            (Except.ok (some r), ls2) ∧
          r.lookup "__timestamp__" =
            some (JsonValue.str (dt.isoformatNaive ++ offsetString off ++ "Z"))) ∧
    (dtIST.isoformat ++ "Z" = "2020-01-01T10:00:00+05:30Z" ∧
     dtIST.asUtcNaive.isoformat ++ "Z" = "2020-01-01T04:30:00Z" ∧
     dtIST.isoformat ++ "Z" ≠ dtIST.asUtcNaive.isoformat ++ "Z") := by
  constructor
  · intro el ls name version event dt now schema off hh hget hv hoff
    obtain ⟨r, ls2, h1, h2⟩ :=
      emit_timestamp_field el ls name version event (some dt) now schema hh hget hv
    refine ⟨r, ls2, h1, ?_⟩
    rw [h2]
    simp [Datetime.isoformat, hoff]
  · exact ⟨rfl, rfl, by decide⟩

/-- Witness for C9: the offset-aware override `dtIST` at offset +330
minutes. -/
theorem emit_timestamp_no_utc_conversion_witness :
    ∃ r ls2,
      testLogger.emit emptyLogState "test/test" 1
          [("something", JsonValue.str "blah")] (some dtIST) dt0 =
        (Except.ok (some r), ls2) ∧
      r.lookup "__timestamp__" =
        some (JsonValue.str (dtIST.isoformatNaive ++ offsetString 330 ++ "Z")) :=
  emit_timestamp_appends_z_without_utc_conversion.1 testLogger emptyLogState
    "test/test" 1 [("something", JsonValue.str "blah")] dtIST dt0 testSchema
    330 rfl rfl rfl rfl

/-- Calling `add_handler` changes neither the `allowed_policies` trait nor the owned
registry. -/
theorem add_handler_preserves_config (el : EventLogger) (ls : LogState)
    (h : Handler) :
    (el.add_handler ls h).1.allowed_policies = el.allowed_policies ∧
    (el.add_handler ls h).1.schema_registry = el.schema_registry := by
  unfold EventLogger.add_handler
  by_cases hm : h ∈ el.handlers <;> simp [hm]

/-- Folding `add_handler` over a handler list (as `__init__` does) changes
neither the `allowed_policies` trait nor the owned registry. -/
theorem foldl_add_handler_preserves_config (hs : List Handler)
    (s : EventLogger × LogState) :
    (hs.foldl (fun s h => s.1.add_handler s.2 h) s).1.allowed_policies =
        s.1.allowed_policies ∧
    (hs.foldl (fun s h => s.1.add_handler s.2 h) s).1.schema_registry =
        s.1.schema_registry := by
  induction hs generalizing s with
  | nil => exact ⟨rfl, rfl⟩
  | cons h t ih =>
    simp only [List.foldl]
    obtain ⟨i1, i2⟩ := ih (s.1.add_handler s.2 h)
    obtain ⟨p1, p2⟩ := add_handler_preserves_config s.1 s.2 h
    exact ⟨i1.trans p1, i2.trans p2⟩

/-- C5: every successful emission merges into the capsule exactly
`enforce_redaction_policies` of the event under the logger's configured
allowed-policy set (the registry is constructed with that set); a validation
failure aborts before redaction has any effect; and a constructed logger's
allowed-policy set — and its registry's — defaults to the wildcard
`["all"]`. -/
theorem emit_redaction_uses_logger_policies :
    (∀ (el : EventLogger) (ls : LogState) (name : String) (version : Nat)
        (event : Record) (tso : Option Datetime) (now : Datetime)
        (schema : Schema),
        el.schema_registry.allowed_policies = el.allowed_policies →
        el.handlers.isEmpty = false →
        el.schema_registry.get (name, version) = some schema →
        schema.validate event = Except.ok () →
        (el.emit ls name version event tso now).1 =
          Except.ok (some (dictUpdate (baseCapsule name version (tso.getD now))
            (schema.enforce_redaction_policies el.allowed_policies event)))) ∧
    (∀ (el : EventLogger) (ls : LogState) (name : String) (version : Nat)
        (event : Record) (tso : Option Datetime) (now : Datetime)
        (schema : Schema) (e : String),
        el.handlers.isEmpty = false →
        el.schema_registry.get (name, version) = some schema →
        schema.validate event = Except.error e →
        el.emit ls name version event tso now = (Except.error e, ls)) ∧
    (∀ (uid : Nat) (hs : List Handler) (ls : LogState),
        (EventLogger.construct uid hs ls).1.allowed_policies = ["all"] ∧
        (EventLogger.construct uid hs ls).1.schema_registry.allowed_policies =
          ["all"]) := by
  refine ⟨?_, ?_, ?_⟩
  · intro el ls name version event tso now schema hpol hh hget hv
    rw [emit_success_shape el ls name version event tso now schema hh hget hv]
    rw [hpol]
  · intro el ls name version event tso now schema e hh hget hv
    exact emit_error_shape el ls name version event tso now schema e hh hget hv
  · intro uid hs ls
    unfold EventLogger.construct
    obtain ⟨p1, p2⟩ := foldl_add_handler_preserves_config hs _
    refine ⟨p1.trans rfl, ?_⟩
    rw [p2]
    rfl

/-- Witness for C5: the example logger (default policies, registry built
from them) emitting the example event; and the constructed defaults. -/
theorem emit_redaction_uses_logger_policies_witness :
    (testLogger.emit emptyLogState "test/test" 1
        [("something", JsonValue.str "blah")] none dt0).1 =
      Except.ok (some (dictUpdate (baseCapsule "test/test" 1 dt0)
        (testSchema.enforce_redaction_policies testLogger.allowed_policies
          [("something", JsonValue.str "blah")]))) ∧
    (EventLogger.construct 0 [7] emptyLogState).1.allowed_policies = ["all"] :=
  ⟨emit_redaction_uses_logger_policies.1 testLogger emptyLogState "test/test" 1
      [("something", JsonValue.str "blah")] none dt0 testSchema rfl rfl rfl rfl,
   (emit_redaction_uses_logger_policies.2.2 0 [7] emptyLogState).1⟩

/-- C6: every successful emission hands the single merged capsule to every
handler attached to this instance's logger — each receives the same record
for that capsule, appended once — leaves every other handler untouched, and
returns that same capsule to the caller. -/
theorem emit_dispatches_same_capsule_to_all_sinks (el : EventLogger)
    (ls : LogState) (name : String) (version : Nat) (event : Record)
    (tso : Option Datetime) (now : Datetime) (schema : Schema)
    (hh : el.handlers.isEmpty = false)
    (hget : el.schema_registry.get (name, version) = some schema)
    (hv : schema.validate event = Except.ok ()) :
    ∃ capsule ls2,
      el.emit ls name version event tso now = (Except.ok (some capsule), ls2) ∧
      (∀ h ∈ ls.attached el.uid,
        ls2.out h = ls.out h ++ [deliver (ls.formatterOf h) capsule]) ∧
      (∀ h, h ∉ ls.attached el.uid → ls2.out h = ls.out h) := by
  refine ⟨_, _,
    emit_success_shape el ls name version event tso now schema hh hget hv,
    ?_, ?_⟩
  · intro h hm
    simp [dispatch, hm]
  · intro h hm
    simp [dispatch, hm]

/-- Witness for C6: the example emission on the example logger. -/
theorem emit_dispatches_same_capsule_witness :
    ∃ capsule ls2,
      testLogger.emit emptyLogState "test/test" 1
          [("something", JsonValue.str "blah")] none dt0 =
        (Except.ok (some capsule), ls2) ∧
      (∀ h ∈ emptyLogState.attached testLogger.uid,
        ls2.out h = emptyLogState.out h ++
          [deliver (emptyLogState.formatterOf h) capsule]) ∧
      (∀ h, h ∉ emptyLogState.attached testLogger.uid →
        ls2.out h = emptyLogState.out h) :=
  emit_dispatches_same_capsule_to_all_sinks testLogger emptyLogState
    "test/test" 1 [("something", JsonValue.str "blah")] none dt0 testSchema
    rfl rfl rfl

/-- C7: `add_handler` leaves the sink in the `handlers` trait, attaches it to
this instance's logger, installs the JSON formatter whose serializer strips
the placeholder `message` field, and every record that formatter produces is
a JSON object without a `message` key. -/
theorem add_handler_installs_skip_message_formatter (el : EventLogger)
    (ls : LogState) (handler : Handler) :
    handler ∈ (el.add_handler ls handler).1.handlers ∧
    handler ∈ (el.add_handler ls handler).2.attached el.uid ∧
    (el.add_handler ls handler).2.formatterOf handler =
      some Formatter.jsonSkipMessage ∧
    ∀ record : Record,
      "message" ∉ keysOf (Formatter.jsonSkipMessage.format record) := by
  refine ⟨?_, ?_, ?_, ?_⟩
  · unfold EventLogger.add_handler
    by_cases hm : handler ∈ el.handlers <;> simp [hm]
  · unfold EventLogger.add_handler
    simp only []
    unfold addIfAbsent
    by_cases hm : handler ∈ ls.attached el.uid <;> simp [hm]
  · unfold EventLogger.add_handler
    simp
  · intro record hmem
    unfold Formatter.format keysOf delKey at hmem
    obtain ⟨kv, hkv, hfst⟩ := List.mem_map.mp hmem
    have := (List.mem_filter.mp hkv).2
    simp [hfst] at this

/-- A second `EventLogger` instance (distinct `id(self)`, hence a distinct
private logger name) with its own registry copy. -/
def otherLogger : EventLogger := { testLogger with uid := 1 }

/-- A logging world in which handler `5` is attached only to the logger
named after instance `1`. -/
def twoLoggerState : LogState :=
  { attached := fun n => if n = 1 then [5] else []
    formatterOf := fun _ => some Formatter.jsonSkipMessage
    out := fun _ => [] }

/-- C8: instances use private loggers named after their unique identities,
so an emission on one instance leaves the output of every sink attached only
to the other instance unchanged — whatever the emission's outcome — and
attaching a sink to one instance never attaches it to the other's logger. -/
theorem emit_noninterference_between_instances (el0 el1 : EventLogger)
    (ls : LogState) (h : Handler) (name : String) (version : Nat)
    (event : Record) (tso : Option Datetime) (now : Datetime)
    (hne : el0.uid ≠ el1.uid)
    (hmem : h ∈ ls.attached el1.uid)
    (honly : h ∉ ls.attached el0.uid) :
    ((el0.emit ls name version event tso now).2).out h = ls.out h ∧
    ((el1.add_handler ls h).2).attached el0.uid = ls.attached el0.uid := by
  constructor
  · unfold EventLogger.emit
    split
    · rfl
    · split
      · rfl
      · split
        · rfl
        · simp [dispatch, honly]
  · unfold EventLogger.add_handler
    simp [hne]

/-- Witness for C8: handler `5` is attached only to instance `1`; instance
`0` emits and handler `5` receives nothing; attaching to instance `1` leaves
instance `0`'s attachment list empty. -/
theorem emit_noninterference_witness :
    ((testLogger.emit twoLoggerState "test/test" 1
        [("something", JsonValue.str "blah")] none dt0).2).out 5 =
      twoLoggerState.out 5 ∧
    ((otherLogger.add_handler twoLoggerState 5).2).attached testLogger.uid =
      twoLoggerState.attached testLogger.uid :=
  emit_noninterference_between_instances testLogger otherLogger twoLoggerState
    5 "test/test" 1 [("something", JsonValue.str "blah")] none dt0
    (by decide) (by decide) (by decide)

/-- The logger state reached by constructing an `EventLogger` whose
configured `handlers` trait lists the same handler twice —
`EventLogger(handlers=[h, h])` — a state in which the `handlers` list holds
two occurrences. -/
def dupConstructed : EventLogger × LogState :=
  EventLogger.construct 0 [7, 7] emptyLogState

/-- C10 counterexample: on the constructible logger whose `handlers` trait
holds handler `7` twice, calling `add_handler 7` twice leaves two
occurrences in the handlers list, not exactly one as the claim states. -/
theorem add_handler_twice_leaves_two_occurrences :
    ¬ ((((dupConstructed.1.add_handler dupConstructed.2 7).1.add_handler
          (dupConstructed.1.add_handler dupConstructed.2 7).2 7).1).handlers.count 7
        = 1) := by
  decide

/-- Calling `add_handler` on an already-present handler leaves the logger value
unchanged. -/
theorem add_handler_of_mem (el : EventLogger) (ls : LogState) (h : Handler)
    (hm : h ∈ el.handlers) : (el.add_handler ls h).1 = el := by
  unfold EventLogger.add_handler
  simp [hm]

/-- Calling `add_handler` on an absent handler appends it once. -/
theorem add_handler_of_not_mem (el : EventLogger) (ls : LogState)
    (h : Handler) (hm : h ∉ el.handlers) :
    (el.add_handler ls h).1 = { el with handlers := el.handlers ++ [h] } := by
  unfold EventLogger.add_handler
  simp [hm]

/-- The handler is in the `handlers` trait after `add_handler`. -/
theorem mem_add_handler (el : EventLogger) (ls : LogState) (h : Handler) :
    h ∈ (el.add_handler ls h).1.handlers := by
  unfold EventLogger.add_handler
  by_cases hm : h ∈ el.handlers <;> simp [hm]

/-- C10 amended: calling `add_handler h` twice yields the same handlers list
as calling it once (the second call appends nothing); when `h` was not
already in the handlers list it then occurs exactly once; and
`remove_handler h` with `h` absent leaves the handlers list unchanged. -/
theorem add_handler_idempotent_remove_absent_noop (el : EventLogger)
    (ls : LogState) (h : Handler) :
    ((el.add_handler ls h).1.add_handler (el.add_handler ls h).2 h).1.handlers =
      (el.add_handler ls h).1.handlers ∧
    (h ∉ el.handlers →
      ((el.add_handler ls h).1.add_handler
        (el.add_handler ls h).2 h).1.handlers.count h = 1) ∧
    (h ∉ el.handlers → (el.remove_handler ls h).1.handlers = el.handlers) := by
  refine ⟨?_, ?_, ?_⟩
  · rw [add_handler_of_mem _ _ _ (mem_add_handler el ls h)]
  · intro hm
    rw [add_handler_of_mem _ _ _ (mem_add_handler el ls h),
      add_handler_of_not_mem el ls h hm]
    simp [List.count_append, List.count_eq_zero_of_not_mem hm]
  · intro hm
    unfold EventLogger.remove_handler
    simp [List.erase_of_not_mem hm]

/-- Witness for C10 amended: a logger with an empty handlers list and
handler `3`. -/
theorem add_handler_idempotent_witness :
    ((sinklessLogger.add_handler emptyLogState 3).1.add_handler
        (sinklessLogger.add_handler emptyLogState 3).2 3).1.handlers =
      (sinklessLogger.add_handler emptyLogState 3).1.handlers ∧
    ((sinklessLogger.add_handler emptyLogState 3).1.add_handler
        (sinklessLogger.add_handler emptyLogState 3).2 3).1.handlers.count 3 = 1 ∧
    (sinklessLogger.remove_handler emptyLogState 3).1.handlers =
      sinklessLogger.handlers := by
  obtain ⟨p1, p2, p3⟩ :=
    add_handler_idempotent_remove_absent_noop sinklessLogger emptyLogState 3
  exact ⟨p1, p2 (by decide), p3 (by decide)⟩

end JupyterEvents
